import Mathlib

/-!
Verification of the adaptive fan-speed control core of the BS2PRO controller.

The Go package `internal/smartcontrol` (files `config.go`, `helpers.go`,
`learn.go`, `calculate.go`) is embedded shallowly: Go slices become `List Int`,
Go `int` becomes `Int` (no value in the core ever approaches the 64-bit range),
and Go's truncating integer division becomes `Int.tdiv`.  Functions that
mutate a slice in place are rendered as functions returning the new list.
A Go slice-indexing operation that can panic (index out of range) is rendered
with `Option`: `none` is the panic.
-/

namespace BS2PRO

/-- Curve point, from `internal/types` (`FanCurvePoint`). -/
structure FanCurvePoint where
  Temperature : Int
  RPM : Int
  deriving DecidableEq, Repr

instance : Inhabited FanCurvePoint := ⟨⟨0, 0⟩⟩

/-- Smart-control configuration, from `internal/types` (`SmartControlConfig`). -/
structure SmartControlConfig where
  Enabled : Bool
  Learning : Bool
  TargetTemp : Int
  Aggressiveness : Int
  Hysteresis : Int
  MinRPMChange : Int
  RampUpLimit : Int
  RampDownLimit : Int
  LearnRate : Int
  LearnWindow : Int
  LearnDelay : Int
  OverheatWeight : Int
  RPMDeltaWeight : Int
  NoiseWeight : Int
  TrendGain : Int
  MaxLearnOffset : Int
  LearnedOffsets : List Int
  LearnedOffsetsHeat : List Int
  LearnedOffsetsCool : List Int
  LearnedRateHeat : List Int
  LearnedRateCool : List Int
  deriving DecidableEq, Repr

/-- From `helpers.go`: `clampInt`. -/
def clampInt (value minValue maxValue : Int) : Int :=
  if value < minValue then minValue
  else if value > maxValue then maxValue
  else value

/-- From `helpers.go`: `absInt`. -/
def absInt (value : Int) : Int :=
  if value < 0 then -value else value

/-- From `learn.go`: `signInt`. -/
def signInt (value : Int) : Int :=
  if value > 0 then 1 else if value < 0 then -1 else 0

/-- From `helpers.go`: `getCurveEdgeRPMBounds`; the pair is
(leftMinRPM, rightMaxRPM), the min and max of the two endpoint RPMs. -/
def getCurveEdgeRPMBounds : List FanCurvePoint → Int × Int
  | [] => (0, 4000)
  | p :: rest =>
    let lastPoint := rest.getLast?.getD p
    let left := p.RPM
    let right := lastPoint.RPM
    if left > right then (right, left) else (left, right)

/-- From `helpers.go`: `clampOffsetForPoint`. -/
def clampOffsetForPoint (offset baseRPM leftMinRPM rightMaxRPM maxLearnOffset : Int) : Int :=
  let minOffset := max (leftMinRPM - baseRPM) (-maxLearnOffset)
  let maxOffset := min (rightMaxRPM - baseRPM) maxLearnOffset
  if minOffset > maxOffset then 0
  else clampInt offset minOffset maxOffset

/-- From `calculate.go`: `ApplyRampLimit`. -/
def ApplyRampLimit (targetRPM lastRPM upLimit downLimit : Int) : Int :=
  if targetRPM > lastRPM then min (lastRPM + upLimit) targetRPM
  else if targetRPM < lastRPM then max (lastRPM - downLimit) targetRPM
  else targetRPM

/-- Modelled from the spec: the constants `rateBucketMin`/`rateBucketMax` are
referenced by `learn.go` but declared in a repository file not present under
`src/`; the spec fixes the bucket as `clamp(ΔT, -3, +3) + 3` with seven
buckets, so the bounds are -3 and +3. -/
def rateBucketMin : Int := -3

/-- Modelled from the spec: see `rateBucketMin`. -/
def rateBucketMax : Int := 3

/-- From `learn.go`: `rateBucketCount` (= 7). -/
def rateBucketCount : Int := rateBucketMax - rateBucketMin + 1

/-- From `learn.go`: `rateBucketIndex`. -/
def rateBucketIndex (tempDelta : Int) : Int :=
  clampInt tempDelta rateBucketMin rateBucketMax - rateBucketMin

/-- From `learn.go`: `clampRateBias`.  The Go local `cap` is named
`capB` here. -/
def clampRateBias (value maxLearnOffset : Int) : Int :=
  let capB := min (max 80 (Int.tdiv maxLearnOffset 2)) 600
  clampInt value (-capB) capB

/-- Convenience name for the rate-bias cap of `clampRateBias`. -/
def rateCap (maxLearnOffset : Int) : Int :=
  min (max 80 (Int.tdiv maxLearnOffset 2)) 600

/-- Go's `make([]int, n)` followed by `copy(_, xs)`: the first `n` elements of
`xs` padded with zeros to length `n`. -/
def resizeTo (n : Nat) (xs : List Int) : List Int :=
  xs.take n ++ List.replicate (n - xs.length) 0

/-- From `learn.go`: `normalizeRateBiases` (resize to 7, clamp each entry;
the boolean reports whether the length was wrong or any entry moved). -/
def normalizeRateBiases (rateBiases : List Int) (maxLearnOffset : Int) :
    List Int × Bool :=
  let base := resizeTo 7 rateBiases
  let normalized := base.map (fun v => clampRateBias v maxLearnOffset)
  (normalized, decide (rateBiases.length ≠ 7) || decide (normalized ≠ base))

/-- From `config.go`: `BlendOffsets` (element-wise truncating mean, missing
entries read as 0; Go's `nil` result for two empty inputs is `[]`). -/
def BlendOffsets (heatOffsets coolOffsets : List Int) : List Int :=
  if heatOffsets.length = 0 ∧ coolOffsets.length = 0 then []
  else
    (List.range (max coolOffsets.length heatOffsets.length)).map
      (fun i => Int.tdiv (heatOffsets.getD i 0 + coolOffsets.getD i 0) 2)

/-- One entry of `constrainOffsetsToCurveBounds`: index `i` past the curve is
zeroed, otherwise the value is clamped for the point at `i`. -/
def constrainEntry (curve : List FanCurvePoint) (lo hi M : Int) (i : Nat) (v : Int) : Int :=
  if curve.length ≤ i then 0
  else clampOffsetForPoint v (curve.getD i default).RPM lo hi M

/-- From `helpers.go`: `constrainOffsetsToCurveBounds`.  The Go `updated` flag
is true when some entry index lies past the curve (the loop sets it
unconditionally there) or some entry was changed by the clamp; with
`offsets` no longer than `curve` this is exactly list inequality. -/
def constrainOffsetsToCurveBounds (offsets : List Int) (curve : List FanCurvePoint)
    (maxLearnOffset : Int) : List Int × Bool :=
  if offsets.length = 0 ∨ curve.length = 0 then (offsets, false)
  else
    let b := getCurveEdgeRPMBounds curve
    let normalized := (List.range offsets.length).map
      (fun i => constrainEntry curve b.1 b.2 maxLearnOffset i (offsets.getD i 0))
    (normalized, decide (curve.length < offsets.length) || decide (normalized ≠ offsets))

/-- From `helpers.go`: `intSlicesEqual`. -/
def intSlicesEqual (a b : List Int) : Bool := decide (a = b)

/-- From `internal/types`: `GetDefaultSmartControlConfig`. -/
def GetDefaultSmartControlConfig (curve : List FanCurvePoint) : SmartControlConfig where
  Enabled := true
  Learning := true
  TargetTemp := 68
  Aggressiveness := 5
  Hysteresis := 2
  MinRPMChange := 50
  RampUpLimit := 220
  RampDownLimit := 160
  LearnRate := 4
  LearnWindow := 6
  LearnDelay := 2
  OverheatWeight := 8
  RPMDeltaWeight := 5
  NoiseWeight := 4
  TrendGain := 5
  MaxLearnOffset := 600
  LearnedOffsets := List.replicate curve.length 0
  LearnedOffsetsHeat := List.replicate curve.length 0
  LearnedOffsetsCool := List.replicate curve.length 0
  LearnedRateHeat := List.replicate 7 0
  LearnedRateCool := List.replicate 7 0

/-- One scalar step of `NormalizeConfig`: keep `v` when it is inside
`[lo, hi]`, otherwise replace it with the default `d` and report a change. -/
def normScalar (v lo hi d : Int) : Int × Bool :=
  if v < lo ∨ v > hi then (d, true) else (v, false)

/-- From `config.go`: the resize step for the heat/cool tables: when the
length is wrong, rebuild at curve length, seeding from the table itself when
non-empty and from the (already resized) blended table otherwise. -/
def resizeSeeded (n : Nat) (table seed : List Int) : List Int × Bool :=
  if table.length ≠ n then
    (if table.length > 0 then resizeTo n table else resizeTo n seed, true)
  else (table, false)

/-- From `config.go`: `NormalizeConfig`. -/
def NormalizeConfig (cfg : SmartControlConfig) (curve : List FanCurvePoint) :
    SmartControlConfig × Bool :=
  let defaults := GetDefaultSmartControlConfig curve
  let learning := true
  let chL := !cfg.Learning
  let s1 := normScalar cfg.TargetTemp 45 90 defaults.TargetTemp
  let s2 := normScalar cfg.Aggressiveness 1 10 defaults.Aggressiveness
  let s3 := normScalar cfg.Hysteresis 0 8 defaults.Hysteresis
  let s4 := normScalar cfg.MinRPMChange 20 400 defaults.MinRPMChange
  let s5 := normScalar cfg.RampUpLimit 50 1200 defaults.RampUpLimit
  let s6 := normScalar cfg.RampDownLimit 50 1200 defaults.RampDownLimit
  let s7 := normScalar cfg.LearnRate 1 10 defaults.LearnRate
  let s8 := normScalar cfg.LearnWindow 3 24 defaults.LearnWindow
  let s9 := normScalar cfg.LearnDelay 1 8 defaults.LearnDelay
  let s10 := normScalar cfg.OverheatWeight 1 12 defaults.OverheatWeight
  let s11 := normScalar cfg.RPMDeltaWeight 1 12 defaults.RPMDeltaWeight
  let s12 := normScalar cfg.NoiseWeight 0 12 defaults.NoiseWeight
  let s13 := normScalar cfg.TrendGain 1 12 defaults.TrendGain
  let s14 := normScalar cfg.MaxLearnOffset 100 2000 defaults.MaxLearnOffset
  let M := s14.1
  let blended0 :=
    if cfg.LearnedOffsets.length ≠ curve.length then resizeTo curve.length cfg.LearnedOffsets
    else cfg.LearnedOffsets
  let chB0 := decide (cfg.LearnedOffsets.length ≠ curve.length)
  let h0 := resizeSeeded curve.length cfg.LearnedOffsetsHeat blended0
  let hs := constrainOffsetsToCurveBounds h0.1 curve M
  let heat := if hs.2 then hs.1 else h0.1
  let c0 := resizeSeeded curve.length cfg.LearnedOffsetsCool blended0
  let cs := constrainOffsetsToCurveBounds c0.1 curve M
  let cool := if cs.2 then cs.1 else c0.1
  let rh := normalizeRateBiases cfg.LearnedRateHeat M
  let rateHeat := if rh.2 then rh.1 else cfg.LearnedRateHeat
  let rc := normalizeRateBiases cfg.LearnedRateCool M
  let rateCool := if rc.2 then rc.1 else cfg.LearnedRateCool
  let rampDown := if s6.1 > s5.1 + 300 then s5.1 + 300 else s6.1
  let chRamp := decide (s6.1 > s5.1 + 300)
  let blend1 := BlendOffsets heat cool
  let bs := constrainOffsetsToCurveBounds blend1 curve M
  let blend2 := if bs.2 then bs.1 else blend1
  let chBl := !intSlicesEqual blend2 blended0
  let finalOffsets := if chBl then blend2 else blended0
  ({ Enabled := cfg.Enabled
     Learning := learning
     TargetTemp := s1.1
     Aggressiveness := s2.1
     Hysteresis := s3.1
     MinRPMChange := s4.1
     RampUpLimit := s5.1
     RampDownLimit := rampDown
     LearnRate := s7.1
     LearnWindow := s8.1
     LearnDelay := s9.1
     OverheatWeight := s10.1
     RPMDeltaWeight := s11.1
     NoiseWeight := s12.1
     TrendGain := s13.1
     MaxLearnOffset := M
     LearnedOffsets := finalOffsets
     LearnedOffsetsHeat := heat
     LearnedOffsetsCool := cool
     LearnedRateHeat := rateHeat
     LearnedRateCool := rateCool },
   chL || s1.2 || s2.2 || s3.2 || s4.2 || s5.2 || s6.2 || s7.2 || s8.2 || s9.2 ||
     s10.2 || s11.2 || s12.2 || s13.2 || s14.2 || chB0 || h0.2 || hs.2 || c0.2 || cs.2 ||
     rh.2 || rc.2 || chRamp || bs.2 || chBl)

/-- From `calculate.go`: `selectOffsetsForTrend`. -/
def selectOffsetsForTrend (tempDelta : Int) (cfg : SmartControlConfig) : List Int :=
  if tempDelta > 0 ∧ cfg.LearnedOffsetsHeat.length > 0 then cfg.LearnedOffsetsHeat
  else if tempDelta < 0 ∧ cfg.LearnedOffsetsCool.length > 0 then cfg.LearnedOffsetsCool
  else if cfg.LearnedOffsetsHeat.length > 0 ∧ cfg.LearnedOffsetsCool.length > 0 then
    BlendOffsets cfg.LearnedOffsetsHeat cfg.LearnedOffsetsCool
  else cfg.LearnedOffsets

/-- From `calculate.go`, `CalculateTargetRPM` lines 361-376: the loop that
builds `effectiveCurve` before the monotonicity pass.  `activeOffsets` is the
trend-selected table and `fallback` is `cfg.LearnedOffsets`. -/
def buildEffectiveCurve (curve : List FanCurvePoint) (activeOffsets fallback : List Int)
    (M : Int) : List FanCurvePoint :=
  let b := getCurveEdgeRPMBounds curve
  (List.range curve.length).map (fun i =>
    let point := curve.getD i default
    let offset0 :=
      if i < activeOffsets.length then activeOffsets.getD i 0
      else if i < fallback.length then fallback.getD i 0
      else 0
    let offset := clampOffsetForPoint offset0 point.RPM b.1 b.2 M
    ⟨point.Temperature, clampInt (point.RPM + offset) b.1 b.2⟩)

/-- Tail of `enforceNonDecreasingRPM`: each RPM is raised to the running
maximum `prev` of the already-processed prefix. -/
def enforceFrom (prev : Int) : List FanCurvePoint → List FanCurvePoint
  | [] => []
  | p :: rest =>
    let r := if p.RPM < prev then prev else p.RPM
    ⟨p.Temperature, r⟩ :: enforceFrom r rest

/-- From `helpers.go`: `enforceNonDecreasingRPM` (in-place forward pass,
rendered functionally). -/
def enforceNonDecreasingRPM : List FanCurvePoint → List FanCurvePoint
  | [] => []
  | p :: rest => p :: enforceFrom p.RPM rest

/-- The effective curve constructed inside `CalculateTargetRPM` (offset
selection, per-point clamp, then the monotonicity pass). -/
def effectiveCurveOf (avgTemp lastAvgTemp : Int) (curve : List FanCurvePoint)
    (cfg : SmartControlConfig) : List FanCurvePoint :=
  enforceNonDecreasingRPM
    (buildEffectiveCurve curve (selectOffsetsForTrend (avgTemp - lastAvgTemp) cfg)
      cfg.LearnedOffsets cfg.MaxLearnOffset)

/-- From `helpers.go`: `nearestCurveIndex` (nearest point by absolute
temperature distance, ties to the lower index). -/
def nearestCurveIndex (temp : Int) (curve : List FanCurvePoint) : Nat :=
  match curve with
  | [] => 0
  | p :: rest =>
    (rest.foldl
      (fun (acc : Nat × Int × Nat) (q : FanCurvePoint) =>
        let distance := absInt (q.Temperature - temp)
        if distance < acc.2.1 then (acc.2.2, distance, acc.2.2 + 1)
        else (acc.1, acc.2.1, acc.2.2 + 1))
      (0, absInt (p.Temperature - temp), 1)).1

/-- From `learn.go`: `isStableLearningWindow`. -/
def isStableLearningWindow (temps : List Int) (allowedRange : Int) : Bool :=
  match temps with
  | [] => false
  | t :: rest =>
    let maxTemp := rest.foldl (fun a b => if b > a then b else a) t
    let minTemp := rest.foldl (fun a b => if b < a then b else a) t
    decide (maxTemp - minTemp ≤ max 2 allowedRange)

/-- From `learn.go`: `scaledDelta` (sign-preserving ceiling scaling that never
rounds a non-zero delta to zero). -/
def scaledDelta (delta numerator denominator : Int) : Int :=
  if delta = 0 ∨ denominator ≤ 0 then 0
  else
    let absDelta := absInt delta
    let scaled0 := Int.tdiv (absDelta * numerator + denominator - 1) denominator
    let scaled := if scaled0 = 0 then 1 else scaled0
    if delta < 0 then -scaled else scaled

/-- From `learn.go`: `applyDeltaAtIndex` (in-place slice update rendered as a
returned list; the boolean reports whether the entry moved). -/
def applyDeltaAtIndex (offsets : List Int) (idx delta : Int)
    (curve : List FanCurvePoint) (M : Int) : List Int × Bool :=
  if delta = 0 ∨ idx < 0 ∨ (offsets.length : Int) ≤ idx then (offsets, false)
  else if (curve.length : Int) ≤ idx then (offsets, false)
  else
    let i := idx.toNat
    let b := getCurveEdgeRPMBounds curve
    let cur := offsets.getD i 0
    let newValue := clampOffsetForPoint (cur + delta) (curve.getD i default).RPM b.1 b.2 M
    if newValue = cur then (offsets, false) else (offsets.set i newValue, true)

/-- From `learn.go`: `applyRateBiasDeltaAtIndex`. -/
def applyRateBiasDeltaAtIndex (rateBiases : List Int) (idx delta M : Int) :
    List Int × Bool :=
  if delta = 0 ∨ idx < 0 ∨ (rateBiases.length : Int) ≤ idx then (rateBiases, false)
  else
    let i := idx.toNat
    let cur := rateBiases.getD i 0
    let newValue := clampRateBias (cur + delta) M
    if newValue = cur then (rateBiases, false) else (rateBiases.set i newValue, true)

/-- First pass of `smoothAndClampOffsets`: the 3-tap weighted mean with
weights (1,5,1), read from the un-mutated input list. -/
def smoothedOffsetAt (offsets : List Int) (i : Nat) : Int :=
  let weighted0 := offsets.getD i 0 * 5
  let weight0 : Int := 5
  let weighted1 := if 0 < i then weighted0 + offsets.getD (i-1) 0 else weighted0
  let weight1 := if 0 < i then weight0 + 1 else weight0
  let weighted2 := if i + 1 < offsets.length then weighted1 + offsets.getD (i+1) 0 else weighted1
  let weight2 := if i + 1 < offsets.length then weight1 + 1 else weight1
  Int.tdiv weighted2 weight2

/-- Second pass of `smoothAndClampOffsets`: left-to-right, each smoothed value
is jump-limited against the already-written previous entry and then clamped
for its curve point (so the clamp-for-point is always the last write). -/
def offsetClampPass (curve : List FanCurvePoint) (lo hi M maxJump : Int) :
    Option Int → Nat → List Int → List Int
  | _, _, [] => []
  | prev, i, s :: rest =>
    let c1 := match prev with
      | none => s
      | some p => clampInt s (p - maxJump) (p + maxJump)
    let c2 := clampOffsetForPoint c1 (curve.getD i default).RPM lo hi M
    c2 :: offsetClampPass curve lo hi M maxJump (some c2) (i+1) rest

/-- From `learn.go`: `smoothAndClampOffsets`.  All call sites pass offset
lists of exactly the curve's length (the Go loop indexes `curve[i]`
unconditionally). -/
def smoothAndClampOffsets (offsets : List Int) (curve : List FanCurvePoint)
    (M : Int) : List Int × Bool :=
  if offsets.length = 0 ∨ curve.length = 0 then (offsets, false)
  else
    let b := getCurveEdgeRPMBounds curve
    let smoothed := (List.range offsets.length).map (smoothedOffsetAt offsets)
    let maxJump := min (max 20 (Int.tdiv M 10)) 90
    let result := offsetClampPass curve b.1 b.2 M maxJump none 0 smoothed
    (result, decide (result ≠ offsets))

/-- First pass of `smoothRateBiases`: the 3-tap weighted mean with weights
(2,4,2). -/
def smoothedRateAt (rateBiases : List Int) (i : Nat) : Int :=
  let weighted0 := rateBiases.getD i 0 * 4
  let weight0 : Int := 4
  let weighted1 := if 0 < i then weighted0 + rateBiases.getD (i-1) 0 * 2 else weighted0
  let weight1 := if 0 < i then weight0 + 2 else weight0
  let weighted2 := if i + 1 < rateBiases.length then weighted1 + rateBiases.getD (i+1) 0 * 2 else weighted1
  let weight2 := if i + 1 < rateBiases.length then weight1 + 2 else weight1
  Int.tdiv weighted2 weight2

/-- Second pass of `smoothRateBiases`: rate-cap clamp first, then the jump
limit against the already-written previous entry. -/
def rateClampPass (M maxJump : Int) : Option Int → List Int → List Int
  | _, [] => []
  | prev, s :: rest =>
    let c1 := clampRateBias s M
    let c2 := match prev with
      | none => c1
      | some p => clampInt c1 (p - maxJump) (p + maxJump)
    c2 :: rateClampPass M maxJump (some c2) rest

/-- From `learn.go`: `smoothRateBiases`. -/
def smoothRateBiases (rateBiases : List Int) (M : Int) : List Int × Bool :=
  if rateBiases.length = 0 then (rateBiases, false)
  else
    let smoothed := (List.range rateBiases.length).map (smoothedRateAt rateBiases)
    let maxJump := min (max 12 (Int.tdiv M 20)) 45
    let result := rateClampPass M maxJump none smoothed
    (result, decide (result ≠ rateBiases))

/-- The five neighbourhood updates `learn.go` applies to the active offset
table at `idx`, `idx±1` (scale 2/3) and `idx±2` (scale 1/3), in source
order. -/
def applyOffsetSequence (offsets : List Int) (idx delta : Int)
    (curve : List FanCurvePoint) (M : Int) : List Int × Bool :=
  let s1 := applyDeltaAtIndex offsets idx delta curve M
  let s2 := applyDeltaAtIndex s1.1 (idx - 1) (scaledDelta delta 2 3) curve M
  let s3 := applyDeltaAtIndex s2.1 (idx + 1) (scaledDelta delta 2 3) curve M
  let s4 := applyDeltaAtIndex s3.1 (idx - 2) (scaledDelta delta 1 3) curve M
  let s5 := applyDeltaAtIndex s4.1 (idx + 2) (scaledDelta delta 1 3) curve M
  (s5.1, s1.2 || s2.2 || s3.2 || s4.2 || s5.2)

/-- The three neighbourhood updates `learn.go` applies to the active rate
table at `rateIdx` and `rateIdx±1` (scale 2/3), in source order. -/
def applyRateSequence (rateBiases : List Int) (rateIdx rateDelta M : Int) :
    List Int × Bool :=
  let s1 := applyRateBiasDeltaAtIndex rateBiases rateIdx rateDelta M
  let s2 := applyRateBiasDeltaAtIndex s1.1 (rateIdx - 1) (scaledDelta rateDelta 2 3) M
  let s3 := applyRateBiasDeltaAtIndex s2.1 (rateIdx + 1) (scaledDelta rateDelta 2 3) M
  (s3.1, s1.2 || s2.2 || s3.2)

/-- From `learn.go`, `LearnCurveOffsets` lines 52-89: the raw learning score
(error, overheat, trend, churn and noise terms plus the four feed-forward
corrections), factored out of the main function. -/
def learnRawScore (avgTemp lastAvgTemp targetRPM lastTargetRPM learnTempDelta : Int)
    (cfg : SmartControlConfig) : Int :=
  let errorTemp := avgTemp - cfg.TargetTemp
  let tempDelta := avgTemp - lastAvgTemp
  let overheat := max 0 (avgTemp - (cfg.TargetTemp + cfg.Hysteresis))
  let rpmDelta := absInt (targetRPM - lastTargetRPM)
  let noise := max 0 (targetRPM - 2800)
  let tempTerm := errorTemp * (4 + cfg.LearnRate)
  let overheatTerm := overheat * (2 + cfg.OverheatWeight)
  let trendTerm := tempDelta * (2 + cfg.TrendGain)
  let changePenalty := Int.tdiv rpmDelta (max 30 cfg.MinRPMChange) * (2 + cfg.RPMDeltaWeight)
  let noisePenalty := Int.tdiv noise 180 * cfg.NoiseWeight
  let raw0 := tempTerm + overheatTerm + trendTerm - changePenalty - noisePenalty
  let raw1 :=
    if tempDelta > 0 ∧ 0 ≤ cfg.TargetTemp - avgTemp ∧
        cfg.TargetTemp - avgTemp ≤ cfg.Hysteresis + 4 then
      raw0 + (cfg.Hysteresis + 4 - (cfg.TargetTemp - avgTemp)) * (1 + Int.tdiv cfg.TrendGain 2)
    else raw0
  let raw2 := if learnTempDelta > 0 then raw1 + learnTempDelta * (2 + cfg.TrendGain) else raw1
  let raw3 := if learnTempDelta < 0 then raw2 + learnTempDelta * max 1 (Int.tdiv cfg.TrendGain 2) else raw2
  let raw4 := if errorTemp < -cfg.Hysteresis - 1 ∧ tempDelta ≤ 0 then raw3 - (3 + cfg.NoiseWeight) else raw3
  if tempDelta > 0 ∧ rpmDelta ≤ max 20 (Int.tdiv cfg.MinRPMChange 2) ∧
      errorTemp ≤ cfg.Hysteresis + 2 then
    raw4 - (4 + Int.tdiv cfg.NoiseWeight 2)
  else raw4

/-- From `learn.go`, `LearnCurveOffsets` lines 96-101: quantize the raw score
into a small offset step. -/
def learnDelta (raw : Int) (cfg : SmartControlConfig) : Int :=
  let denominator := max 10 (24 - cfg.LearnRate * 2)
  let delta0 := Int.tdiv raw denominator
  let delta1 := if delta0 = 0 then signInt raw else delta0
  clampInt delta1 (-4) 6

/-- From `learn.go`, `LearnCurveOffsets` lines 136-141: quantize the raw score
into a small rate-bias step. -/
def learnRateDelta (raw : Int) (cfg : SmartControlConfig) : Int :=
  let rateDenominator := max 14 (28 - cfg.LearnRate * 2)
  let rateDelta0 := Int.tdiv raw rateDenominator
  let rateDelta1 := if rateDelta0 = 0 then signInt raw else rateDelta0
  clampInt rateDelta1 (-3) 4

/-- From `learn.go`: `LearnCurveOffsets`.  Returns
(heat, cool, rateHeat, rateCool, changed).  The Go re-check
`len(heatOffsets) != len(curve)` after `make`+`copy` is dead code and is
dropped; the swap of active/passive pointers is rendered by the
`isHeatActive` selections. -/
def LearnCurveOffsets (avgTemp lastAvgTemp targetRPM lastTargetRPM : Int)
    (recentAvgTemps : List Int) (curve : List FanCurvePoint)
    (cfg : SmartControlConfig) : List Int × List Int × List Int × List Int × Bool :=
  if curve.length = 0 then
    (cfg.LearnedOffsetsHeat, cfg.LearnedOffsetsCool,
     (normalizeRateBiases cfg.LearnedRateHeat cfg.MaxLearnOffset).1,
     (normalizeRateBiases cfg.LearnedRateCool cfg.MaxLearnOffset).1, false)
  else
    let heatOffsets := resizeTo curve.length cfg.LearnedOffsetsHeat
    let coolOffsets := resizeTo curve.length cfg.LearnedOffsetsCool
    let rateHeat := (normalizeRateBiases cfg.LearnedRateHeat cfg.MaxLearnOffset).1
    let rateCool := (normalizeRateBiases cfg.LearnedRateCool cfg.MaxLearnOffset).1
    let learningWindow := max 3 cfg.LearnWindow
    let learningDelay := max 1 cfg.LearnDelay
    let minRequired := learningWindow + learningDelay
    if (recentAvgTemps.length : Int) < minRequired then
      (heatOffsets, coolOffsets, rateHeat, rateCool, false)
    else
      let windowStart := ((recentAvgTemps.length : Int) - minRequired).toNat
      let learningWindowTemps := (recentAvgTemps.drop windowStart).take learningWindow.toNat
      if isStableLearningWindow learningWindowTemps (cfg.Hysteresis + 1) = false ∧
          avgTemp < cfg.TargetTemp + cfg.Hysteresis + 3 then
        (heatOffsets, coolOffsets, rateHeat, rateCool, false)
      else
        let learnTemp := recentAvgTemps.getD ((recentAvgTemps.length : Int) - learningDelay).toNat 0
        let learnPrevTemp := recentAvgTemps.getD ((recentAvgTemps.length : Int) - learningDelay - 1).toNat 0
        let learnTempDelta := learnTemp - learnPrevTemp
        let idx : Int := nearestCurveIndex learnTemp curve
        let tempDelta := avgTemp - lastAvgTemp
        let raw := learnRawScore avgTemp lastAvgTemp targetRPM lastTargetRPM learnTempDelta cfg
        if absInt raw < 4 then (heatOffsets, coolOffsets, rateHeat, rateCool, false)
        else
          let delta := learnDelta raw cfg
          let isHeatActive := tempDelta ≥ 0
          let rateIdx := rateBucketIndex tempDelta
          let active0 := if isHeatActive then heatOffsets else coolOffsets
          let passive0 := if isHeatActive then coolOffsets else heatOffsets
          let activeRate0 := if isHeatActive then rateHeat else rateCool
          let passiveRate0 := if isHeatActive then rateCool else rateHeat
          let a1 := applyOffsetSequence active0 idx delta curve cfg.MaxLearnOffset
          let p1 := applyDeltaAtIndex passive0 idx (scaledDelta delta 1 8) curve cfg.MaxLearnOffset
          let rateDelta := learnRateDelta raw cfg
          let ar1 := applyRateSequence activeRate0 rateIdx rateDelta cfg.MaxLearnOffset
          let pr1 := applyRateBiasDeltaAtIndex passiveRate0 rateIdx (scaledDelta rateDelta 1 8) cfg.MaxLearnOffset
          let a2 := smoothAndClampOffsets a1.1 curve cfg.MaxLearnOffset
          let p2 := smoothAndClampOffsets p1.1 curve cfg.MaxLearnOffset
          let ar2 := smoothRateBiases ar1.1 cfg.MaxLearnOffset
          let pr2 := smoothRateBiases pr1.1 cfg.MaxLearnOffset
          let changed := a1.2 || p1.2 || ar1.2 || pr1.2 || a2.2 || p2.2 || ar2.2 || pr2.2
          (if isHeatActive then a2.1 else p2.1,
           if isHeatActive then p2.1 else a2.1,
           if isHeatActive then ar2.1 else pr2.1,
           if isHeatActive then pr2.1 else ar2.1,
           changed)

/-- Modelled from the spec: `temperature.CalculateTargetRPM`, the
piecewise-linear curve evaluator of §4.1, whose source file is not under
`src/` (clamp to endpoint RPMs outside the range, integer linear
interpolation inside, 0 for an empty curve). -/
def curveEvalRPM (t : Int) : List FanCurvePoint → Int
  | [] => 0
  | [p] => p.RPM
  | p :: q :: rest =>
    if t ≤ p.Temperature then p.RPM
    else if t ≤ q.Temperature then
      p.RPM + Int.tdiv ((t - p.Temperature) * (q.RPM - p.RPM)) (q.Temperature - p.Temperature)
    else curveEvalRPM t (q :: rest)

/-- From `calculate.go`: `selectRateBiasesForTrend`.  The blended branch reads
`cfg.LearnedRateHeat[i]` and `cfg.LearnedRateCool[i]` for every `i < 7`
without a bounds check; when either non-empty table is shorter than 7 that
indexing panics, rendered here as `none`. -/
def selectRateBiasesForTrend (tempDelta : Int) (cfg : SmartControlConfig) :
    Option (List Int) :=
  if tempDelta > 0 ∧ cfg.LearnedRateHeat.length > 0 then some cfg.LearnedRateHeat
  else if tempDelta < 0 ∧ cfg.LearnedRateCool.length > 0 then some cfg.LearnedRateCool
  else if cfg.LearnedRateHeat.length > 0 ∧ cfg.LearnedRateCool.length > 0 then
    if 7 ≤ cfg.LearnedRateHeat.length ∧ 7 ≤ cfg.LearnedRateCool.length then
      some ((List.range 7).map (fun i =>
        Int.tdiv (cfg.LearnedRateHeat.getD i 0 + cfg.LearnedRateCool.getD i 0) 2))
    else none
  else some []

/-- From `calculate.go`: `sampleRateBias` (0 unless the selected table has
exactly `rateBucketCount` entries). -/
def sampleRateBias (tempDelta : Int) (cfg : SmartControlConfig) : Option Int :=
  match selectRateBiasesForTrend tempDelta cfg with
  | none => none
  | some rateBiases =>
    if (rateBiases.length : Int) ≠ rateBucketCount then some 0
    else some (rateBiases.getD (rateBucketIndex tempDelta).toNat 0)

/-- From `calculate.go`: `CalculateTargetRPM` (smartcontrol).  The baseline
lookup uses the spec-modelled evaluator `curveEvalRPM`; a panic inside the
rate-bias selection propagates as `none`. -/
def CalculateTargetRPM (avgTemp lastAvgTemp : Int) (curve : List FanCurvePoint)
    (cfg : SmartControlConfig) : Option Int :=
  let effectiveCurve := effectiveCurveOf avgTemp lastAvgTemp curve cfg
  let targetRPM0 := curveEvalRPM avgTemp effectiveCurve
  if targetRPM0 ≤ 0 then some 0
  else
    let tempError := avgTemp - cfg.TargetTemp
    let t1 :=
      if absInt tempError > cfg.Hysteresis then
        targetRPM0 + tempError * (12 + cfg.Aggressiveness * 4)
      else targetRPM0
    let tempDelta := avgTemp - lastAvgTemp
    match sampleRateBias tempDelta cfg with
    | none => none
    | some bias =>
      let t2 := t1 + bias
      let t3 :=
        if tempDelta > 0 then
          let preheatBand := cfg.Hysteresis + 4 + Int.tdiv cfg.TrendGain 2
          let distanceToTarget := cfg.TargetTemp - avgTemp
          let t3a :=
            if 0 ≤ distanceToTarget ∧ distanceToTarget ≤ preheatBand then
              t2 + (preheatBand - distanceToTarget) * (4 + cfg.Aggressiveness + cfg.TrendGain)
            else t2
          t3a + tempDelta * (8 + cfg.Aggressiveness * 2 + cfg.TrendGain * 3)
        else t2
      let t4 := if tempDelta < 0 then t3 + tempDelta * (1 + Int.tdiv cfg.TrendGain 3) else t3
      let t5 := if avgTemp ≥ cfg.TargetTemp + 15 then t4 + 320 + cfg.OverheatWeight * 15 else t4
      some (clampInt t5 0 4000)

/-- Concrete three-point curve used by witnesses. -/
def sampleCurve : List FanCurvePoint := [⟨40, 1000⟩, ⟨60, 1500⟩, ⟨80, 2000⟩]

/-- Concrete two-point curve used by the C9 counterexample. -/
def sampleCurve2 : List FanCurvePoint := [⟨40, 1000⟩, ⟨80, 2000⟩]

/-- Default configuration on `sampleCurve`. -/
def sampleCfg : SmartControlConfig := GetDefaultSmartControlConfig sampleCurve

/-- Configuration whose heat table holds an odd negative offset; used by the
C4 counterexample. -/
def sampleCfgC4 : SmartControlConfig :=
  { GetDefaultSmartControlConfig sampleCurve with LearnedOffsetsHeat := [0, -3, 0] }

/-- Configuration with a non-empty rate-heat table of length 3; used by the
C5 counterexample. -/
def sampleCfgC5 : SmartControlConfig :=
  { GetDefaultSmartControlConfig sampleCurve with LearnedRateHeat := [0, 0, 0] }

/-- Configuration on `sampleCurve2` whose heat and cool tables differ; used by
the C9 counterexample. -/
def sampleCfgC9 : SmartControlConfig :=
  { GetDefaultSmartControlConfig sampleCurve2 with
      LearnedOffsetsHeat := [100, 0], LearnedOffsetsCool := [0, 0] }

/-- P2 as a fixed-point statement: a table is admissible for a curve when it
has the curve's length and every entry is left unchanged by
`clampOffsetForPoint` for its point (equivalently: the entry lies in the
point's admissible range when that range is non-empty, and is 0 when the
range is empty). -/
def OffsetsAdmissible (curve : List FanCurvePoint) (M : Int) (l : List Int) : Prop :=
  l.length = curve.length ∧
  ∀ i, i < l.length →
    l.getD i 0 = clampOffsetForPoint (l.getD i 0) ((curve.getD i default).RPM)
      (getCurveEdgeRPMBounds curve).1 (getCurveEdgeRPMBounds curve).2 M

/-- Every entry of a table is inside the rate cap. -/
def RateInCap (M : Int) (l : List Int) : Prop :=
  ∀ x ∈ l, -(rateCap M) ≤ x ∧ x ≤ rateCap M

/-- Everything `NormalizeConfig` guarantees about its output: scalars in
range, the ramp relation, array lengths, admissible offset tables, fixed
rate tables, and the blended identity. -/
structure IsNormal (cfg : SmartControlConfig) (curve : List FanCurvePoint) : Prop where
  learning : cfg.Learning = true
  targetTemp : 45 ≤ cfg.TargetTemp ∧ cfg.TargetTemp ≤ 90
  aggressiveness : 1 ≤ cfg.Aggressiveness ∧ cfg.Aggressiveness ≤ 10
  hysteresis : 0 ≤ cfg.Hysteresis ∧ cfg.Hysteresis ≤ 8
  minRPMChange : 20 ≤ cfg.MinRPMChange ∧ cfg.MinRPMChange ≤ 400
  rampUp : 50 ≤ cfg.RampUpLimit ∧ cfg.RampUpLimit ≤ 1200
  rampDown : 50 ≤ cfg.RampDownLimit ∧ cfg.RampDownLimit ≤ 1200
  learnRate : 1 ≤ cfg.LearnRate ∧ cfg.LearnRate ≤ 10
  learnWindow : 3 ≤ cfg.LearnWindow ∧ cfg.LearnWindow ≤ 24
  learnDelay : 1 ≤ cfg.LearnDelay ∧ cfg.LearnDelay ≤ 8
  overheatWeight : 1 ≤ cfg.OverheatWeight ∧ cfg.OverheatWeight ≤ 12
  rpmDeltaWeight : 1 ≤ cfg.RPMDeltaWeight ∧ cfg.RPMDeltaWeight ≤ 12
  noiseWeight : 0 ≤ cfg.NoiseWeight ∧ cfg.NoiseWeight ≤ 12
  trendGain : 1 ≤ cfg.TrendGain ∧ cfg.TrendGain ≤ 12
  maxLearnOffset : 100 ≤ cfg.MaxLearnOffset ∧ cfg.MaxLearnOffset ≤ 2000
  rampRel : cfg.RampDownLimit ≤ cfg.RampUpLimit + 300
  offLen : cfg.LearnedOffsets.length = curve.length
  heatAdm : OffsetsAdmissible curve cfg.MaxLearnOffset cfg.LearnedOffsetsHeat
  coolAdm : OffsetsAdmissible curve cfg.MaxLearnOffset cfg.LearnedOffsetsCool
  rateHeatFix : normalizeRateBiases cfg.LearnedRateHeat cfg.MaxLearnOffset =
    (cfg.LearnedRateHeat, false)
  rateCoolFix : normalizeRateBiases cfg.LearnedRateCool cfg.MaxLearnOffset =
    (cfg.LearnedRateCool, false)
  blendEq : BlendOffsets cfg.LearnedOffsetsHeat cfg.LearnedOffsetsCool = cfg.LearnedOffsets

/-- Arithmetic helper: Go integer division truncates toward zero, which is
`Int.tdiv`; this rewrites it through Euclidean division for `omega`. -/
theorem tdiv_two_eq (a : Int) : Int.tdiv a 2 = if 0 ≤ a then a / 2 else -((-a) / 2) := by
  cases a with
  | ofNat m => simp [Int.tdiv]
  | negSucc m => simp [Int.tdiv]; rfl

theorem le_tdiv_two {lo s : Int} (h : 2*lo ≤ s) : lo ≤ Int.tdiv s 2 := by
  rw [tdiv_two_eq]; split <;> omega

theorem tdiv_two_le {s hi : Int} (h : s ≤ 2*hi) : Int.tdiv s 2 ≤ hi := by
  rw [tdiv_two_eq]; split <;> omega

theorem clampInt_mem {lo hi : Int} (x : Int) (h : lo ≤ hi) :
    lo ≤ clampInt x lo hi ∧ clampInt x lo hi ≤ hi := by
  unfold clampInt; split <;> [omega; skip]; split <;> omega

theorem clampInt_of_mem {lo hi x : Int} (h1 : lo ≤ x) (h2 : x ≤ hi) :
    clampInt x lo hi = x := by
  unfold clampInt; split <;> [omega; skip]; split <;> omega

theorem clampInt_eq_self_iff {lo hi x : Int} :
    clampInt x lo hi = x ↔ (lo ≤ x ∧ x ≤ hi) := by
  unfold clampInt
  constructor
  · intro he
    by_cases h1 : x < lo
    · simp [h1] at he; omega
    · by_cases h2 : x > hi
      · simp [h1, h2] at he; omega
      · omega
  · intro ⟨h1, h2⟩; rw [if_neg (by omega), if_neg (by omega)]

/-- The clamp against a point's admissible range is idempotent: its output is
always a fixed point of itself. -/
theorem clampOffsetForPoint_idem (x baseRPM lo hi M : Int) :
    clampOffsetForPoint (clampOffsetForPoint x baseRPM lo hi M) baseRPM lo hi M =
      clampOffsetForPoint x baseRPM lo hi M := by
  unfold clampOffsetForPoint
  by_cases he : max (lo - baseRPM) (-M) > min (hi - baseRPM) M
  · simp [he]
  · simp only [he, if_false]
    apply clampInt_of_mem
    · exact (clampInt_mem x (by omega)).1
    · exact (clampInt_mem x (by omega)).2

theorem enforceFrom_chain (prev : Int) (l : List FanCurvePoint) :
    List.Chain' (fun a b => a.RPM ≤ b.RPM) (enforceFrom prev l) ∧
    (∀ q ∈ (enforceFrom prev l).head?, prev ≤ q.RPM) := by
  induction l generalizing prev with
  | nil => simp [enforceFrom]
  | cons p rest ih =>
    set r := if p.RPM < prev then prev else p.RPM with hr
    have hpr : prev ≤ r := by rw [hr]; split <;> omega
    constructor
    · rw [enforceFrom]
      apply List.chain'_cons'.mpr
      exact ⟨fun q hq => (ih r).2 q hq, (ih r).1⟩
    · intro q hq
      simp only [enforceFrom, List.head?_cons, Option.mem_def, Option.some.injEq] at hq
      subst hq; exact hpr

theorem enforceNonDecreasingRPM_chain (l : List FanCurvePoint) :
    List.Chain' (fun a b => a.RPM ≤ b.RPM) (enforceNonDecreasingRPM l) := by
  cases l with
  | nil => simp [enforceNonDecreasingRPM]
  | cons p rest =>
    rw [enforceNonDecreasingRPM]
    apply List.chain'_cons'.mpr
    exact ⟨fun q hq => (enforceFrom_chain p.RPM rest).2 q hq, (enforceFrom_chain p.RPM rest).1⟩

/-- C2: for every curve and configuration, the effective curve constructed
inside `CalculateTargetRPM` (baseline RPM plus selected offset, clamped to the
endpoint envelope, then the monotonicity pass) has non-decreasing RPMs at
every adjacent pair of indices. -/
theorem C2_effective_curve_monotone (avgTemp lastAvgTemp : Int)
    (curve : List FanCurvePoint) (cfg : SmartControlConfig) :
    List.Chain' (fun a b => a.RPM ≤ b.RPM)
      (effectiveCurveOf avgTemp lastAvgTemp curve cfg) :=
  enforceNonDecreasingRPM_chain _

theorem resizeTo_length (n : Nat) (xs : List Int) : (resizeTo n xs).length = n := by
  unfold resizeTo
  simp [List.length_take]
  omega

theorem resizeTo_eq_self {n : Nat} {xs : List Int} (h : xs.length = n) :
    resizeTo n xs = xs := by
  unfold resizeTo
  subst h
  simp

theorem rateCap_ge (M : Int) : 80 ≤ rateCap M := by
  unfold rateCap
  have h1 := le_max_left 80 (Int.tdiv M 2)
  omega

theorem clampRateBias_mem (x M : Int) :
    -(rateCap M) ≤ clampRateBias x M ∧ clampRateBias x M ≤ rateCap M := by
  have h := rateCap_ge M
  unfold clampRateBias rateCap at *
  exact clampInt_mem x (by omega)

theorem clampRateBias_of_mem {x M : Int} (h1 : -(rateCap M) ≤ x) (h2 : x ≤ rateCap M) :
    clampRateBias x M = x := by
  unfold clampRateBias
  exact clampInt_of_mem h1 h2

theorem normalizeRateBiases_inCap (r : List Int) (M : Int) :
    RateInCap M (normalizeRateBiases r M).1 := by
  intro x hx
  unfold normalizeRateBiases at hx
  simp only [List.mem_map] at hx
  obtain ⟨v, _, hv⟩ := hx
  rw [← hv]
  exact clampRateBias_mem v M

theorem normalizeRateBiases_length (r : List Int) (M : Int) :
    (normalizeRateBiases r M).1.length = 7 := by
  unfold normalizeRateBiases
  simp [resizeTo_length]

theorem normalizeRateBiases_of_fixed {r : List Int} {M : Int}
    (hlen : r.length = 7) (hfix : ∀ x ∈ r, clampRateBias x M = x) :
    normalizeRateBiases r M = (r, false) := by
  unfold normalizeRateBiases
  rw [resizeTo_eq_self hlen]
  have hmap : r.map (fun v => clampRateBias v M) = r := by
    conv_rhs => rw [← List.map_id r]
    exact List.map_congr_left hfix
  simp [hmap, hlen]

theorem applyRateBiasDeltaAtIndex_inCap {r : List Int} {M : Int}
    (h : RateInCap M r) (idx delta : Int) :
    RateInCap M (applyRateBiasDeltaAtIndex r idx delta M).1 := by
  unfold applyRateBiasDeltaAtIndex
  split
  · exact h
  · dsimp only
    split
    · exact h
    · intro x hx
      rcases List.mem_or_eq_of_mem_set hx with hmem | heq
      · exact h x hmem
      · subst heq; exact clampRateBias_mem _ M

theorem applyRateSequence_inCap {r : List Int} {M : Int}
    (h : RateInCap M r) (rateIdx rateDelta : Int) :
    RateInCap M (applyRateSequence r rateIdx rateDelta M).1 := by
  unfold applyRateSequence
  exact applyRateBiasDeltaAtIndex_inCap
    (applyRateBiasDeltaAtIndex_inCap (applyRateBiasDeltaAtIndex_inCap h _ _) _ _) _ _

theorem rateClampPass_inCap (M maxJump : Int) (hmj : 0 < maxJump) :
    ∀ (l : List Int) (prev : Option Int),
      (∀ p, prev = some p → -(rateCap M) ≤ p ∧ p ≤ rateCap M) →
      RateInCap M (rateClampPass M maxJump prev l) := by
  intro l
  induction l with
  | nil => intro prev _ x hx; simp [rateClampPass] at hx
  | cons s rest ih =>
    intro prev hprev x hx
    have hc1 := clampRateBias_mem s M
    cases prev with
    | none =>
      simp only [rateClampPass] at hx
      rcases List.mem_cons.mp hx with hx | hx
      · subst hx; exact hc1
      · exact ih _ (fun p hp => by injection hp with hp; rw [← hp]; exact hc1) x hx
    | some p =>
      have hp := hprev p rfl
      have hc2 : -(rateCap M) ≤ clampInt (clampRateBias s M) (p - maxJump) (p + maxJump) ∧
          clampInt (clampRateBias s M) (p - maxJump) (p + maxJump) ≤ rateCap M := by
        unfold clampInt
        split <;> [omega; skip]
        split <;> omega
      simp only [rateClampPass] at hx
      rcases List.mem_cons.mp hx with hx | hx
      · subst hx; exact hc2
      · exact ih _ (fun q hq => by injection hq with hq; rw [← hq]; exact hc2) x hx

theorem smoothRateBiases_maxJump_pos (M : Int) : 0 < min (max 12 (Int.tdiv M 20)) 45 := by
  have h1 := le_max_left 12 (Int.tdiv M 20)
  omega

theorem smoothRateBiases_inCap (r : List Int) (M : Int) (h : RateInCap M r) :
    RateInCap M (smoothRateBiases r M).1 := by
  unfold smoothRateBiases
  split
  · exact h
  · exact rateClampPass_inCap M _ (smoothRateBiases_maxJump_pos M) _ none (by simp)

theorem applyDeltaAtIndex_length (offsets : List Int) (idx delta : Int)
    (curve : List FanCurvePoint) (M : Int) :
    (applyDeltaAtIndex offsets idx delta curve M).1.length = offsets.length := by
  unfold applyDeltaAtIndex
  split
  · rfl
  · split
    · rfl
    · dsimp only
      split
      · rfl
      · simp

theorem applyOffsetSequence_length (offsets : List Int) (idx delta : Int)
    (curve : List FanCurvePoint) (M : Int) :
    (applyOffsetSequence offsets idx delta curve M).1.length = offsets.length := by
  unfold applyOffsetSequence
  simp only [applyDeltaAtIndex_length]

theorem offsetClampPass_length (curve : List FanCurvePoint) (lo hi M maxJump : Int) :
    ∀ (l : List Int) (prev : Option Int) (i0 : Nat),
      (offsetClampPass curve lo hi M maxJump prev i0 l).length = l.length := by
  intro l
  induction l with
  | nil => intro prev i0; rfl
  | cons s rest ih =>
    intro prev i0
    simp only [offsetClampPass, List.length_cons, ih]

theorem offsetClampPass_fix (curve : List FanCurvePoint) (lo hi M maxJump : Int) :
    ∀ (l : List Int) (prev : Option Int) (i0 : Nat) (j : Nat), j < l.length →
      (offsetClampPass curve lo hi M maxJump prev i0 l).getD j 0 =
        clampOffsetForPoint
          ((offsetClampPass curve lo hi M maxJump prev i0 l).getD j 0)
          ((curve.getD (i0 + j) default).RPM) lo hi M := by
  intro l
  induction l with
  | nil => intro prev i0 j hj; simp at hj
  | cons s rest ih =>
    intro prev i0 j hj
    cases j with
    | zero =>
      simp only [offsetClampPass, List.getD_cons_zero, Nat.add_zero]
      exact (clampOffsetForPoint_idem _ _ _ _ _).symm
    | succ j =>
      simp only [offsetClampPass, List.getD_cons_succ]
      have hidx : i0 + (j + 1) = (i0 + 1) + j := by omega
      rw [hidx]
      exact ih _ (i0 + 1) j (by simpa using Nat.lt_of_succ_lt_succ hj)

theorem smoothAndClampOffsets_adm (offsets : List Int) (curve : List FanCurvePoint)
    (M : Int) (hlen : offsets.length = curve.length) (hne : curve.length ≠ 0) :
    OffsetsAdmissible curve M (smoothAndClampOffsets offsets curve M).1 := by
  unfold smoothAndClampOffsets
  rw [if_neg (by omega)]
  dsimp only
  constructor
  · rw [offsetClampPass_length]
    simp [hlen]
  · intro i hi
    rw [offsetClampPass_length] at hi
    simp only [List.length_map, List.length_range] at hi
    have := offsetClampPass_fix curve (getCurveEdgeRPMBounds curve).1
      (getCurveEdgeRPMBounds curve).2 M (min (max 20 (Int.tdiv M 10)) 90)
      ((List.range offsets.length).map (smoothedOffsetAt offsets)) none 0 i
      (by simpa using hi)
    simpa using this

theorem constrain_adm (offs : List Int) (curve : List FanCurvePoint) (M : Int)
    (hlen : offs.length = curve.length) (hne : curve.length ≠ 0) :
    OffsetsAdmissible curve M (constrainOffsetsToCurveBounds offs curve M).1 := by
  unfold constrainOffsetsToCurveBounds
  rw [if_neg (by omega)]
  dsimp only
  constructor
  · simp [hlen]
  · intro i hi
    simp only [List.length_map, List.length_range] at hi
    have hget : ∀ (f : Nat → Int), ((List.range offs.length).map f).getD i 0 = f i := by
      intro f
      rw [List.getD_eq_getElem?_getD]
      simp [List.getElem?_map, List.getElem?_range, hi]
    rw [hget]
    unfold constrainEntry
    rw [if_neg (by omega)]
    exact (clampOffsetForPoint_idem _ _ _ _ _).symm

theorem constrain_snd_false_eq {offs : List Int} {curve : List FanCurvePoint} {M : Int}
    (h : (constrainOffsetsToCurveBounds offs curve M).2 = false) :
    (constrainOffsetsToCurveBounds offs curve M).1 = offs := by
  revert h
  unfold constrainOffsetsToCurveBounds
  split
  · intro _; rfl
  · dsimp only
    intro h
    simp only [Bool.or_eq_false_iff, decide_eq_false_iff_not] at h
    exact not_not.mp h.2

theorem resizeSeeded_length (n : Nat) (table seed : List Int) :
    (resizeSeeded n table seed).1.length = n := by
  unfold resizeSeeded
  split
  · dsimp only
    split <;> exact resizeTo_length _ _
  · simpa using by omega

theorem constrain_if_adm (offs : List Int) (curve : List FanCurvePoint) (M : Int)
    (hlen : offs.length = curve.length) (hne : curve.length ≠ 0) :
    OffsetsAdmissible curve M
      (if (constrainOffsetsToCurveBounds offs curve M).2 = true then
        (constrainOffsetsToCurveBounds offs curve M).1
      else offs) := by
  split
  · exact constrain_adm offs curve M hlen hne
  · next h =>
    rw [Bool.not_eq_true] at h
    rw [← constrain_snd_false_eq h]
    exact constrain_adm offs curve M hlen hne

theorem constrain_fst_length (offs : List Int) (curve : List FanCurvePoint) (M : Int) :
    (constrainOffsetsToCurveBounds offs curve M).1.length = offs.length := by
  unfold constrainOffsetsToCurveBounds
  split
  · rfl
  · simp

theorem constrain_if_adm2 (offs : List Int) (curve : List FanCurvePoint) (M : Int)
    (hlen : offs.length = curve.length) :
    OffsetsAdmissible curve M
      (if (constrainOffsetsToCurveBounds offs curve M).2 = true then
        (constrainOffsetsToCurveBounds offs curve M).1
      else offs) := by
  by_cases hz : curve.length = 0
  · have hc : constrainOffsetsToCurveBounds offs curve M = (offs, false) := by
      unfold constrainOffsetsToCurveBounds; rw [if_pos (by omega)]
    rw [hc]
    simp only [Bool.false_eq_true, if_false]
    exact ⟨hlen, by intro i hi; omega⟩
  · exact constrain_if_adm offs curve M hlen hz

/-- After `NormalizeConfig`, both the heat and the cool table are admissible
for the curve under the normalized `MaxLearnOffset`. -/
theorem normalizeConfig_tables_adm (cfg : SmartControlConfig) (curve : List FanCurvePoint) :
    OffsetsAdmissible curve (NormalizeConfig cfg curve).1.MaxLearnOffset
        (NormalizeConfig cfg curve).1.LearnedOffsetsHeat ∧
    OffsetsAdmissible curve (NormalizeConfig cfg curve).1.MaxLearnOffset
        (NormalizeConfig cfg curve).1.LearnedOffsetsCool := by
  unfold NormalizeConfig
  dsimp only
  exact ⟨constrain_if_adm2 _ _ _ (resizeSeeded_length _ _ _),
    constrain_if_adm2 _ _ _ (resizeSeeded_length _ _ _)⟩

/-- Core preservation lemma for the learner: with admissible heat/cool tables
on a non-empty curve, all four tables returned by `LearnCurveOffsets` satisfy
the P2/P3 bounds. -/
theorem learnCurveOffsets_bounds (avgTemp lastAvgTemp targetRPM lastTargetRPM : Int)
    (recentAvgTemps : List Int) (curve : List FanCurvePoint) (cfg : SmartControlConfig)
    (hne : curve ≠ [])
    (hH : OffsetsAdmissible curve cfg.MaxLearnOffset cfg.LearnedOffsetsHeat)
    (hC : OffsetsAdmissible curve cfg.MaxLearnOffset cfg.LearnedOffsetsCool) :
    OffsetsAdmissible curve cfg.MaxLearnOffset
        (LearnCurveOffsets avgTemp lastAvgTemp targetRPM lastTargetRPM recentAvgTemps curve cfg).1 ∧
    OffsetsAdmissible curve cfg.MaxLearnOffset
        (LearnCurveOffsets avgTemp lastAvgTemp targetRPM lastTargetRPM recentAvgTemps curve cfg).2.1 ∧
    RateInCap cfg.MaxLearnOffset
        (LearnCurveOffsets avgTemp lastAvgTemp targetRPM lastTargetRPM recentAvgTemps curve cfg).2.2.1 ∧
    RateInCap cfg.MaxLearnOffset
        (LearnCurveOffsets avgTemp lastAvgTemp targetRPM lastTargetRPM recentAvgTemps curve cfg).2.2.2.1 := by
  have hlen0 : curve.length ≠ 0 := by
    intro h; exact hne (List.eq_nil_of_length_eq_zero h)
  have hHlen := hH.1
  have hClen := hC.1
  unfold LearnCurveOffsets
  rw [if_neg (by omega)]
  dsimp only
  rw [resizeTo_eq_self hHlen, resizeTo_eq_self hClen]
  split
  · exact ⟨hH, hC, normalizeRateBiases_inCap _ _, normalizeRateBiases_inCap _ _⟩
  · split
    · exact ⟨hH, hC, normalizeRateBiases_inCap _ _, normalizeRateBiases_inCap _ _⟩
    · split
      · exact ⟨hH, hC, normalizeRateBiases_inCap _ _, normalizeRateBiases_inCap _ _⟩
      · refine ⟨?_, ?_, ?_, ?_⟩ <;> (split <;> (dsimp only; first
          | (refine smoothAndClampOffsets_adm _ _ _ ?_ hlen0
             rw [applyOffsetSequence_length]; assumption)
          | (refine smoothAndClampOffsets_adm _ _ _ ?_ hlen0
             rw [applyDeltaAtIndex_length]; assumption)
          | exact smoothRateBiases_inCap _ _
              (applyRateSequence_inCap (normalizeRateBiases_inCap _ _) _ _)
          | exact smoothRateBiases_inCap _ _
              (applyRateBiasDeltaAtIndex_inCap (normalizeRateBiases_inCap _ _) _ _)))

theorem normScalar_of_inRange {v lo hi : Int} (d : Int) (h1 : lo ≤ v) (h2 : v ≤ hi) :
    normScalar v lo hi d = (v, false) := by
  unfold normScalar
  rw [if_neg (by omega)]

theorem normScalar_mem {lo hi d : Int} (v : Int) (h1 : lo ≤ d) (h2 : d ≤ hi) :
    lo ≤ (normScalar v lo hi d).1 ∧ (normScalar v lo hi d).1 ≤ hi := by
  unfold normScalar
  split
  · exact ⟨h1, h2⟩
  · next h => dsimp only; omega

theorem clampRateBias_idem (x M : Int) :
    clampRateBias (clampRateBias x M) M = clampRateBias x M :=
  clampRateBias_of_mem (clampRateBias_mem x M).1 (clampRateBias_mem x M).2

theorem normalizeRateBiases_snd_false_eq {r : List Int} {M : Int}
    (h : (normalizeRateBiases r M).2 = false) : (normalizeRateBiases r M).1 = r := by
  revert h
  unfold normalizeRateBiases
  intro h
  simp only [Bool.or_eq_false_iff, decide_eq_false_iff_not, not_not] at h
  dsimp only
  rw [h.2, resizeTo_eq_self h.1]

theorem normalizeRateBiases_idem (r : List Int) (M : Int) :
    normalizeRateBiases (normalizeRateBiases r M).1 M = ((normalizeRateBiases r M).1, false) := by
  apply normalizeRateBiases_of_fixed (normalizeRateBiases_length r M)
  intro x hx
  unfold normalizeRateBiases at hx
  simp only [List.mem_map] at hx
  obtain ⟨v, _, hv⟩ := hx
  rw [← hv]
  exact clampRateBias_idem v M

/-- Value of the `if updated { … = sanitized }` pattern around
`constrainOffsetsToCurveBounds`: the kept table is always the sanitized one. -/
theorem constrain_if_val (offs : List Int) (curve : List FanCurvePoint) (M : Int) :
    (if (constrainOffsetsToCurveBounds offs curve M).2 = true then
        (constrainOffsetsToCurveBounds offs curve M).1
      else offs) = (constrainOffsetsToCurveBounds offs curve M).1 := by
  split
  · rfl
  · next h =>
    rw [Bool.not_eq_true] at h
    exact (constrain_snd_false_eq h).symm

theorem clampOffsetForPoint_fix_of_mem {x baseRPM lo hi M : Int}
    (h1 : max (lo - baseRPM) (-M) ≤ x) (h2 : x ≤ min (hi - baseRPM) M) :
    clampOffsetForPoint x baseRPM lo hi M = x := by
  unfold clampOffsetForPoint
  rw [if_neg (by omega)]
  exact clampInt_of_mem h1 h2

/-- Truncated mean of two admissible offsets is admissible: the key fact
behind the blended table re-clamp being a no-op. -/
theorem clampOffsetForPoint_mean_fix {x y baseRPM lo hi M : Int}
    (hx : clampOffsetForPoint x baseRPM lo hi M = x)
    (hy : clampOffsetForPoint y baseRPM lo hi M = y) :
    clampOffsetForPoint (Int.tdiv (x + y) 2) baseRPM lo hi M = Int.tdiv (x + y) 2 := by
  by_cases he : max (lo - baseRPM) (-M) > min (hi - baseRPM) M
  · have hx0 : x = 0 := by
      rw [← hx]; unfold clampOffsetForPoint; rw [if_pos (by omega)]
    have hy0 : y = 0 := by
      rw [← hy]; unfold clampOffsetForPoint; rw [if_pos (by omega)]
    subst hx0; subst hy0
    unfold clampOffsetForPoint
    rw [if_pos (by omega)]
    decide
  · unfold clampOffsetForPoint at hx hy
    rw [if_neg (by omega)] at hx hy
    have hxm := clampInt_eq_self_iff.mp hx
    have hym := clampInt_eq_self_iff.mp hy
    apply clampOffsetForPoint_fix_of_mem
    · exact le_tdiv_two (by omega)
    · exact tdiv_two_le (by omega)

theorem constrain_of_adm {offs : List Int} {curve : List FanCurvePoint} {M : Int}
    (h : OffsetsAdmissible curve M offs) :
    constrainOffsetsToCurveBounds offs curve M = (offs, false) := by
  obtain ⟨hlen, hfix⟩ := h
  unfold constrainOffsetsToCurveBounds
  by_cases hz : curve.length = 0
  · rw [if_pos (by omega)]
  · rw [if_neg (by omega)]
    dsimp only
    have heq : (List.range offs.length).map
        (fun i => constrainEntry curve (getCurveEdgeRPMBounds curve).1
          (getCurveEdgeRPMBounds curve).2 M i (offs.getD i 0)) = offs := by
      apply List.ext_getElem
      · simp
      · intro i h1 h2
        simp only [List.getElem_map, List.getElem_range]
        unfold constrainEntry
        rw [if_neg (by simp at h1; omega)]
        rw [← List.getD_eq_getElem offs 0 h2]
        exact (hfix i h2).symm
    rw [heq]
    have hnlt : ¬ curve.length < offs.length := by omega
    simp [hnlt]

/-- Admissibility of the blended view of two admissible tables. -/
theorem blendOffsets_adm {curve : List FanCurvePoint} {M : Int} {heat cool : List Int}
    (hH : OffsetsAdmissible curve M heat) (hC : OffsetsAdmissible curve M cool) :
    OffsetsAdmissible curve M (BlendOffsets heat cool) := by
  obtain ⟨hHlen, hHfix⟩ := hH
  obtain ⟨hClen, hCfix⟩ := hC
  unfold BlendOffsets
  by_cases hz : curve.length = 0
  · rw [if_pos (by omega)]
    exact ⟨by simp [hz], by intro i hi; simp at hi⟩
  · rw [if_neg (by omega)]
    constructor
    · simp; omega
    · intro i hi
      simp only [List.length_map, List.length_range] at hi
      have hget : ∀ (f : Nat → Int),
          (((List.range (max cool.length heat.length)).map f).getD i 0) = f i := by
        intro f
        rw [List.getD_eq_getElem?_getD]
        simp [List.getElem?_map, List.getElem?_range, hi]
      rw [hget]
      exact (clampOffsetForPoint_mean_fix ((hHfix i (by omega)).symm)
        ((hCfix i (by omega)).symm)).symm

theorem blendOffsets_getD {heat cool : List Int} {n i : Nat}
    (hH : heat.length = n) (hC : cool.length = n) (hi : i < n) :
    (BlendOffsets heat cool).getD i 0 =
      Int.tdiv (heat.getD i 0 + cool.getD i 0) 2 := by
  unfold BlendOffsets
  rw [if_neg (fun hand => by omega)]
  rw [List.getD_eq_getElem?_getD]
  simp only [List.getElem?_map]
  rw [List.getElem?_range (by omega)]
  simp

theorem blendOffsets_length {heat cool : List Int} {n : Nat}
    (hH : heat.length = n) (hC : cool.length = n) :
    (BlendOffsets heat cool).length = n := by
  unfold BlendOffsets
  by_cases hz : n = 0
  · rw [if_pos (by omega)]
    simpa using hz.symm
  · rw [if_neg (fun hand => by omega)]
    simp
    omega

theorem resizeSeeded_of_len {n : Nat} {table : List Int} (seed : List Int)
    (h : table.length = n) : resizeSeeded n table seed = (table, false) := by
  unfold resizeSeeded
  rw [if_neg (fun hx => hx h)]

/-- A configuration satisfying `IsNormal` is a fixed point of
`NormalizeConfig`, with `changed = false`. -/
theorem normalizeConfig_of_isNormal {cfg : SmartControlConfig} {curve : List FanCurvePoint}
    (h : IsNormal cfg curve) : NormalizeConfig cfg curve = (cfg, false) := by
  have hLOadm : OffsetsAdmissible curve cfg.MaxLearnOffset cfg.LearnedOffsets :=
    h.blendEq ▸ blendOffsets_adm h.heatAdm h.coolAdm
  obtain ⟨En, Le, TT, Ag, Hy, MR, RU, RD, LR, LW, LD, OW, RW, NW, TG, ML, LO, LH, LC, RH, RC⟩ := cfg
  have hle : Le = true := h.learning
  subst hle
  have hTT : 45 ≤ TT ∧ TT ≤ 90 := h.targetTemp
  have hAg : 1 ≤ Ag ∧ Ag ≤ 10 := h.aggressiveness
  have hHy : 0 ≤ Hy ∧ Hy ≤ 8 := h.hysteresis
  have hMR : 20 ≤ MR ∧ MR ≤ 400 := h.minRPMChange
  have hRU : 50 ≤ RU ∧ RU ≤ 1200 := h.rampUp
  have hRD : 50 ≤ RD ∧ RD ≤ 1200 := h.rampDown
  have hLR : 1 ≤ LR ∧ LR ≤ 10 := h.learnRate
  have hLW : 3 ≤ LW ∧ LW ≤ 24 := h.learnWindow
  have hLD : 1 ≤ LD ∧ LD ≤ 8 := h.learnDelay
  have hOW : 1 ≤ OW ∧ OW ≤ 12 := h.overheatWeight
  have hRW : 1 ≤ RW ∧ RW ≤ 12 := h.rpmDeltaWeight
  have hNW : 0 ≤ NW ∧ NW ≤ 12 := h.noiseWeight
  have hTG : 1 ≤ TG ∧ TG ≤ 12 := h.trendGain
  have hML : 100 ≤ ML ∧ ML ≤ 2000 := h.maxLearnOffset
  have hRel : RD ≤ RU + 300 := h.rampRel
  have hLO : LO.length = curve.length := h.offLen
  have hHadm : OffsetsAdmissible curve ML LH := h.heatAdm
  have hCadm : OffsetsAdmissible curve ML LC := h.coolAdm
  have hRHfix : normalizeRateBiases RH ML = (RH, false) := h.rateHeatFix
  have hRCfix : normalizeRateBiases RC ML = (RC, false) := h.rateCoolFix
  have hBlend : BlendOffsets LH LC = LO := h.blendEq
  have hLOadm2 : OffsetsAdmissible curve ML LO := hLOadm
  have hsl : intSlicesEqual LO LO = true := by unfold intSlicesEqual; simp
  unfold NormalizeConfig
  dsimp only
  rw [normScalar_of_inRange _ hTT.1 hTT.2, normScalar_of_inRange _ hAg.1 hAg.2,
    normScalar_of_inRange _ hHy.1 hHy.2, normScalar_of_inRange _ hMR.1 hMR.2,
    normScalar_of_inRange _ hRU.1 hRU.2, normScalar_of_inRange _ hRD.1 hRD.2,
    normScalar_of_inRange _ hLR.1 hLR.2, normScalar_of_inRange _ hLW.1 hLW.2,
    normScalar_of_inRange _ hLD.1 hLD.2, normScalar_of_inRange _ hOW.1 hOW.2,
    normScalar_of_inRange _ hRW.1 hRW.2, normScalar_of_inRange _ hNW.1 hNW.2,
    normScalar_of_inRange _ hTG.1 hTG.2, normScalar_of_inRange _ hML.1 hML.2]
  dsimp only
  rw [if_neg (show ¬ LO.length ≠ curve.length from fun hx => hx hLO),
    decide_eq_false (show ¬ LO.length ≠ curve.length from fun hx => hx hLO)]
  rw [resizeSeeded_of_len _ hHadm.1, resizeSeeded_of_len _ hCadm.1]
  dsimp only
  rw [constrain_of_adm hHadm, constrain_of_adm hCadm]
  dsimp only
  simp only [Bool.false_eq_true, if_false]
  rw [hRHfix, hRCfix]
  dsimp only
  simp only [Bool.false_eq_true, if_false]
  rw [if_neg (show ¬ RD > RU + 300 by omega),
    decide_eq_false (show ¬ RD > RU + 300 by omega)]
  rw [hBlend, constrain_of_adm hLOadm2]
  dsimp only
  simp only [Bool.false_eq_true, if_false]
  rw [hsl]
  rfl

/-- The blended table stored by `NormalizeConfig` is exactly the blend of the
stored heat and cool tables: the re-clamp of the blended view is a no-op
because the truncated mean of admissible entries is admissible. -/
theorem blend_select_eq (B b0 : List Int) :
    (if (!intSlicesEqual B b0) = true then B else b0) = B := by
  split
  · rfl
  · next h =>
    have he : intSlicesEqual B b0 = true := by
      revert h
      cases intSlicesEqual B b0 <;> simp
    unfold intSlicesEqual at he
    exact (of_decide_eq_true he).symm

theorem normalizeConfig_learnedOffsets_eq (cfg : SmartControlConfig)
    (curve : List FanCurvePoint) :
    (NormalizeConfig cfg curve).1.LearnedOffsets =
      BlendOffsets (NormalizeConfig cfg curve).1.LearnedOffsetsHeat
        (NormalizeConfig cfg curve).1.LearnedOffsetsCool := by
  obtain ⟨hH, hC⟩ := normalizeConfig_tables_adm cfg curve
  have hBadm := blendOffsets_adm hH hC
  unfold NormalizeConfig at hBadm ⊢
  dsimp only at hBadm ⊢
  rw [constrain_of_adm hBadm]
  dsimp only
  simp only [Bool.false_eq_true, if_false]
  exact blend_select_eq _ _

theorem normalizeConfig_rateHeat_fix (cfg : SmartControlConfig)
    (curve : List FanCurvePoint) :
    normalizeRateBiases (NormalizeConfig cfg curve).1.LearnedRateHeat
        (NormalizeConfig cfg curve).1.MaxLearnOffset =
      ((NormalizeConfig cfg curve).1.LearnedRateHeat, false) := by
  unfold NormalizeConfig
  dsimp only
  split
  · exact normalizeRateBiases_idem _ _
  · next h =>
    rw [Bool.not_eq_true] at h
    rw [← normalizeRateBiases_snd_false_eq h]
    exact normalizeRateBiases_idem _ _

theorem normalizeConfig_rateCool_fix (cfg : SmartControlConfig)
    (curve : List FanCurvePoint) :
    normalizeRateBiases (NormalizeConfig cfg curve).1.LearnedRateCool
        (NormalizeConfig cfg curve).1.MaxLearnOffset =
      ((NormalizeConfig cfg curve).1.LearnedRateCool, false) := by
  unfold NormalizeConfig
  dsimp only
  split
  · exact normalizeRateBiases_idem _ _
  · next h =>
    rw [Bool.not_eq_true] at h
    rw [← normalizeRateBiases_snd_false_eq h]
    exact normalizeRateBiases_idem _ _

/-- `NormalizeConfig` establishes every invariant in `IsNormal`. -/
theorem normalizeConfig_isNormal (cfg : SmartControlConfig) (curve : List FanCurvePoint) :
    IsNormal (NormalizeConfig cfg curve).1 curve := by
  obtain ⟨hH, hC⟩ := normalizeConfig_tables_adm cfg curve
  refine ⟨?_, ?_, ?_, ?_, ?_, ?_, ?_, ?_, ?_, ?_, ?_, ?_, ?_, ?_, ?_, ?_, ?_,
    hH, hC, normalizeConfig_rateHeat_fix cfg curve, normalizeConfig_rateCool_fix cfg curve,
    (normalizeConfig_learnedOffsets_eq cfg curve).symm⟩
  · rfl
  · unfold NormalizeConfig; dsimp only [GetDefaultSmartControlConfig]
    exact normScalar_mem _ (by decide) (by decide)
  · unfold NormalizeConfig; dsimp only [GetDefaultSmartControlConfig]
    exact normScalar_mem _ (by decide) (by decide)
  · unfold NormalizeConfig; dsimp only [GetDefaultSmartControlConfig]
    exact normScalar_mem _ (by decide) (by decide)
  · unfold NormalizeConfig; dsimp only [GetDefaultSmartControlConfig]
    exact normScalar_mem _ (by decide) (by decide)
  · unfold NormalizeConfig; dsimp only [GetDefaultSmartControlConfig]
    exact normScalar_mem _ (by decide) (by decide)
  · unfold NormalizeConfig; dsimp only [GetDefaultSmartControlConfig]
    have h5 := @normScalar_mem 50 1200 220 cfg.RampUpLimit (by decide) (by decide)
    have h6 := @normScalar_mem 50 1200 160 cfg.RampDownLimit (by decide) (by decide)
    split <;> omega
  · unfold NormalizeConfig; dsimp only [GetDefaultSmartControlConfig]
    exact normScalar_mem _ (by decide) (by decide)
  · unfold NormalizeConfig; dsimp only [GetDefaultSmartControlConfig]
    exact normScalar_mem _ (by decide) (by decide)
  · unfold NormalizeConfig; dsimp only [GetDefaultSmartControlConfig]
    exact normScalar_mem _ (by decide) (by decide)
  · unfold NormalizeConfig; dsimp only [GetDefaultSmartControlConfig]
    exact normScalar_mem _ (by decide) (by decide)
  · unfold NormalizeConfig; dsimp only [GetDefaultSmartControlConfig]
    exact normScalar_mem _ (by decide) (by decide)
  · unfold NormalizeConfig; dsimp only [GetDefaultSmartControlConfig]
    exact normScalar_mem _ (by decide) (by decide)
  · unfold NormalizeConfig; dsimp only [GetDefaultSmartControlConfig]
    exact normScalar_mem _ (by decide) (by decide)
  · unfold NormalizeConfig; dsimp only [GetDefaultSmartControlConfig]
    exact normScalar_mem _ (by decide) (by decide)
  · unfold NormalizeConfig; dsimp only [GetDefaultSmartControlConfig]
    split <;> omega
  · rw [normalizeConfig_learnedOffsets_eq]
    exact blendOffsets_length hH.1 hC.1

/-- C3: `NormalizeConfig` is idempotent: normalizing the configuration it
produced returns that configuration unchanged, and this second application
reports `changed = false`, for every input configuration and every curve. -/
theorem C3_normalize_idempotent (cfg : SmartControlConfig) (curve : List FanCurvePoint) :
    NormalizeConfig (NormalizeConfig cfg curve).1 curve =
      ((NormalizeConfig cfg curve).1, false) :=
  normalizeConfig_of_isNormal (normalizeConfig_isNormal cfg curve)

/-- C4 counterexample: with heat `[0,-3,0]` and cool `[0,0,0]` at index 1 the
stored blended entry is `(-3)/2` truncated toward zero, `-1`, not the
mathematical floor `-2`: the blended identity with `⌊·⌋` fails for a negative
odd sum. -/
theorem C4_counterexample :
    ¬ ((NormalizeConfig sampleCfgC4 sampleCurve).1.LearnedOffsets.getD 1 0 =
        Int.fdiv ((NormalizeConfig sampleCfgC4 sampleCurve).1.LearnedOffsetsHeat.getD 1 0 +
          (NormalizeConfig sampleCfgC4 sampleCurve).1.LearnedOffsetsCool.getD 1 0) 2) := by
  decide

/-- C4 amended: after `NormalizeConfig` recomputes the blended view, every
entry is `(heat[i] + cool[i]) / 2` with Go's division truncating toward zero
(`Int.tdiv`), which differs from the floor exactly on negative odd sums. -/
theorem C4_blended_identity (cfg : SmartControlConfig) (curve : List FanCurvePoint)
    (i : Nat) (hi : i < curve.length) :
    (NormalizeConfig cfg curve).1.LearnedOffsets.getD i 0 =
      Int.tdiv ((NormalizeConfig cfg curve).1.LearnedOffsetsHeat.getD i 0 +
        (NormalizeConfig cfg curve).1.LearnedOffsetsCool.getD i 0) 2 := by
  obtain ⟨hH, hC⟩ := normalizeConfig_tables_adm cfg curve
  rw [normalizeConfig_learnedOffsets_eq]
  exact blendOffsets_getD hH.1 hC.1 hi

/-- C4 witness: the truncating blended identity evaluated at index 1 of the
counterexample configuration (heat -3, cool 0, blended -1). -/
theorem C4_blended_identity_witness :
    (NormalizeConfig sampleCfgC4 sampleCurve).1.LearnedOffsets.getD 1 0 =
      Int.tdiv ((NormalizeConfig sampleCfgC4 sampleCurve).1.LearnedOffsetsHeat.getD 1 0 +
        (NormalizeConfig sampleCfgC4 sampleCurve).1.LearnedOffsetsCool.getD 1 0) 2 :=
  C4_blended_identity sampleCfgC4 sampleCurve 1 (by decide)

/-- C1: starting from any configuration returned by `NormalizeConfig` for a
non-empty curve, the four tables returned by `LearnCurveOffsets` satisfy the
bounds again: every heat/cool entry is admissible for its curve point (a fixed
point of `clampOffsetForPoint`), and every rate entry lies in `[-cap, cap]`
with `cap = min(max(80, maxLearnOffset/2), 600)`. -/
theorem C1_learner_preserves_bounds (avgTemp lastAvgTemp targetRPM lastTargetRPM : Int)
    (recentAvgTemps : List Int) (curve : List FanCurvePoint) (cfg0 : SmartControlConfig)
    (hne : curve ≠ []) :
    OffsetsAdmissible curve (NormalizeConfig cfg0 curve).1.MaxLearnOffset
        (LearnCurveOffsets avgTemp lastAvgTemp targetRPM lastTargetRPM recentAvgTemps
          curve (NormalizeConfig cfg0 curve).1).1 ∧
    OffsetsAdmissible curve (NormalizeConfig cfg0 curve).1.MaxLearnOffset
        (LearnCurveOffsets avgTemp lastAvgTemp targetRPM lastTargetRPM recentAvgTemps
          curve (NormalizeConfig cfg0 curve).1).2.1 ∧
    RateInCap (NormalizeConfig cfg0 curve).1.MaxLearnOffset
        (LearnCurveOffsets avgTemp lastAvgTemp targetRPM lastTargetRPM recentAvgTemps
          curve (NormalizeConfig cfg0 curve).1).2.2.1 ∧
    RateInCap (NormalizeConfig cfg0 curve).1.MaxLearnOffset
        (LearnCurveOffsets avgTemp lastAvgTemp targetRPM lastTargetRPM recentAvgTemps
          curve (NormalizeConfig cfg0 curve).1).2.2.2.1 := by
  obtain ⟨hH, hC⟩ := normalizeConfig_tables_adm cfg0 curve
  exact learnCurveOffsets_bounds avgTemp lastAvgTemp targetRPM lastTargetRPM
    recentAvgTemps curve (NormalizeConfig cfg0 curve).1 hne hH hC

/-- C1 witness: the bounds theorem applied to the default configuration on a
concrete three-point curve with a concrete learning history. -/
theorem C1_learner_preserves_bounds_witness :
    OffsetsAdmissible sampleCurve (NormalizeConfig sampleCfg sampleCurve).1.MaxLearnOffset
        (LearnCurveOffsets 80 79 2500 2400 [79, 79, 79, 79, 79, 79, 80, 80]
          sampleCurve (NormalizeConfig sampleCfg sampleCurve).1).1 ∧
    OffsetsAdmissible sampleCurve (NormalizeConfig sampleCfg sampleCurve).1.MaxLearnOffset
        (LearnCurveOffsets 80 79 2500 2400 [79, 79, 79, 79, 79, 79, 80, 80]
          sampleCurve (NormalizeConfig sampleCfg sampleCurve).1).2.1 ∧
    RateInCap (NormalizeConfig sampleCfg sampleCurve).1.MaxLearnOffset
        (LearnCurveOffsets 80 79 2500 2400 [79, 79, 79, 79, 79, 79, 80, 80]
          sampleCurve (NormalizeConfig sampleCfg sampleCurve).1).2.2.1 ∧
    RateInCap (NormalizeConfig sampleCfg sampleCurve).1.MaxLearnOffset
        (LearnCurveOffsets 80 79 2500 2400 [79, 79, 79, 79, 79, 79, 80, 80]
          sampleCurve (NormalizeConfig sampleCfg sampleCurve).1).2.2.2.1 :=
  C1_learner_preserves_bounds 80 79 2500 2400 [79, 79, 79, 79, 79, 79, 80, 80]
    sampleCurve sampleCfg (by decide)

/-- C8: for a configuration already normalized (learnWindow in 3..24,
learnDelay in 1..8, offset tables of curve length, rate tables of length 7
with entries inside the rate cap) and a history shorter than
`learnWindow + learnDelay`, the learner skips: `changed = false` and all four
returned tables equal the input configuration's tables. -/
theorem C8_gating (avgTemp lastAvgTemp targetRPM lastTargetRPM : Int)
    (recentAvgTemps : List Int) (curve : List FanCurvePoint) (cfg : SmartControlConfig)
    (hW1 : 3 ≤ cfg.LearnWindow) (hW2 : cfg.LearnWindow ≤ 24)
    (hD1 : 1 ≤ cfg.LearnDelay) (hD2 : cfg.LearnDelay ≤ 8)
    (hH : cfg.LearnedOffsetsHeat.length = curve.length)
    (hC : cfg.LearnedOffsetsCool.length = curve.length)
    (hRH : cfg.LearnedRateHeat.length = 7)
    (hRC : cfg.LearnedRateCool.length = 7)
    (hRHc : RateInCap cfg.MaxLearnOffset cfg.LearnedRateHeat)
    (hRCc : RateInCap cfg.MaxLearnOffset cfg.LearnedRateCool)
    (hshort : (recentAvgTemps.length : Int) < cfg.LearnWindow + cfg.LearnDelay) :
    LearnCurveOffsets avgTemp lastAvgTemp targetRPM lastTargetRPM recentAvgTemps curve cfg =
      (cfg.LearnedOffsetsHeat, cfg.LearnedOffsetsCool, cfg.LearnedRateHeat,
        cfg.LearnedRateCool, false) := by
  have hnrmH : normalizeRateBiases cfg.LearnedRateHeat cfg.MaxLearnOffset =
      (cfg.LearnedRateHeat, false) :=
    normalizeRateBiases_of_fixed hRH (fun x hx =>
      clampRateBias_of_mem (hRHc x hx).1 (hRHc x hx).2)
  have hnrmC : normalizeRateBiases cfg.LearnedRateCool cfg.MaxLearnOffset =
      (cfg.LearnedRateCool, false) :=
    normalizeRateBiases_of_fixed hRC (fun x hx =>
      clampRateBias_of_mem (hRCc x hx).1 (hRCc x hx).2)
  unfold LearnCurveOffsets
  rw [hnrmH, hnrmC]
  by_cases hcz : curve.length = 0
  · rw [if_pos hcz]
  · rw [if_neg hcz]
    dsimp only
    rw [resizeTo_eq_self hH, resizeTo_eq_self hC,
      max_eq_right hW1, max_eq_right hD1, if_pos hshort]

/-- C8 witness: the gating theorem applied to the default configuration with
a three-sample history (shorter than learnWindow 6 + learnDelay 2). -/
theorem C8_gating_witness :
    LearnCurveOffsets 50 50 1800 1800 [50, 50, 50] sampleCurve sampleCfg =
      (sampleCfg.LearnedOffsetsHeat, sampleCfg.LearnedOffsetsCool,
        sampleCfg.LearnedRateHeat, sampleCfg.LearnedRateCool, false) :=
  C8_gating 50 50 1800 1800 [50, 50, 50] sampleCurve sampleCfg
    (by decide) (by decide) (by decide) (by decide) (by decide) (by decide)
    (by decide) (by decide) (by unfold RateInCap; decide)
    (by unfold RateInCap; decide) (by decide)

/-- C9 counterexample: with a flat trend (ΔT = 0) and non-empty heat and cool
tables that differ, the effective curve built by `CalculateTargetRPM` is NOT
the one built from the heat table: `selectOffsetsForTrend` requires ΔT > 0 to
pick heat and falls through to the blended view at ΔT = 0. -/
theorem C9_counterexample :
    effectiveCurveOf 50 50 sampleCurve2 sampleCfgC9 ≠
      enforceNonDecreasingRPM (buildEffectiveCurve sampleCurve2
        sampleCfgC9.LearnedOffsetsHeat sampleCfgC9.LearnedOffsets
        sampleCfgC9.MaxLearnOffset) := by decide

/-- C9 amended: when the averaged temperature is unchanged (ΔT = 0) and both
the heat and the cool table are non-empty, `CalculateTargetRPM` builds the
effective curve from the blended view `BlendOffsets(heat, cool)`, not from
the heat table; heat is applied only while the temperature rises. -/
theorem C9_flat_trend_uses_blended (avgTemp : Int) (curve : List FanCurvePoint)
    (cfg : SmartControlConfig)
    (hh : cfg.LearnedOffsetsHeat.length > 0) (hc : cfg.LearnedOffsetsCool.length > 0) :
    effectiveCurveOf avgTemp avgTemp curve cfg =
      enforceNonDecreasingRPM (buildEffectiveCurve curve
        (BlendOffsets cfg.LearnedOffsetsHeat cfg.LearnedOffsetsCool)
        cfg.LearnedOffsets cfg.MaxLearnOffset) := by
  unfold effectiveCurveOf selectOffsetsForTrend
  rw [sub_self]
  rw [if_neg (fun h => absurd h.1 (lt_irrefl 0)),
    if_neg (fun h => absurd h.1 (lt_irrefl 0)), if_pos ⟨hh, hc⟩]

/-- C9 witness: the amended selection theorem applied at the concrete
configuration of the counterexample. -/
theorem C9_flat_trend_uses_blended_witness :
    effectiveCurveOf 50 50 sampleCurve2 sampleCfgC9 =
      enforceNonDecreasingRPM (buildEffectiveCurve sampleCurve2
        (BlendOffsets sampleCfgC9.LearnedOffsetsHeat sampleCfgC9.LearnedOffsetsCool)
        sampleCfgC9.LearnedOffsets sampleCfgC9.MaxLearnOffset) :=
  C9_flat_trend_uses_blended 50 sampleCurve2 sampleCfgC9 (by decide) (by decide)

/-- C5 counterexample: with `LearnedRateHeat = [0,0,0]` (non-empty, length 3)
and the default length-7 cool table, a flat trend reaches the blended rate
branch, which indexes `LearnedRateHeat[i]` for `i < 7` and panics
(`none` in this embedding): `CalculateTargetRPM` does not complete for every
rate-table length. -/
theorem C5_counterexample :
    CalculateTargetRPM 50 50 sampleCurve sampleCfgC5 = none := by decide

/-- C5 amended: if the rate tables cannot trip the blended branch's unchecked
indexing — either table empty, or both at least 7 long (in particular for any
normalized configuration) — `CalculateTargetRPM` completes without any
out-of-bounds access, and the rate bias contribution is 0 whenever the
selected rate table's length differs from 7. -/
theorem C5_rate_bias_safety (avgTemp lastAvgTemp : Int) (curve : List FanCurvePoint)
    (cfg : SmartControlConfig)
    (h : cfg.LearnedRateHeat = [] ∨ cfg.LearnedRateCool = [] ∨
      (7 ≤ cfg.LearnedRateHeat.length ∧ 7 ≤ cfg.LearnedRateCool.length)) :
    (CalculateTargetRPM avgTemp lastAvgTemp curve cfg).isSome = true ∧
    ∀ tempDelta rateBiases,
      selectRateBiasesForTrend tempDelta cfg = some rateBiases →
      rateBiases.length ≠ 7 → sampleRateBias tempDelta cfg = some 0 := by
  have hsel : ∀ tempDelta, (selectRateBiasesForTrend tempDelta cfg).isSome = true := by
    intro tempDelta
    unfold selectRateBiasesForTrend
    split
    · rfl
    · split
      · rfl
      · split
        · next hboth =>
          rw [if_pos]
          · rfl
          · rcases h with h | h | h
            · exact absurd hboth.1 (by simp [h])
            · exact absurd hboth.2 (by simp [h])
            · exact h
        · rfl
  have hsamp : ∀ tempDelta, (sampleRateBias tempDelta cfg).isSome = true := by
    intro tempDelta
    unfold sampleRateBias
    obtain ⟨r, hr⟩ := Option.isSome_iff_exists.mp (hsel tempDelta)
    rw [hr]
    dsimp only
    split <;> rfl
  constructor
  · unfold CalculateTargetRPM
    dsimp only
    by_cases hbase : curveEvalRPM avgTemp (effectiveCurveOf avgTemp lastAvgTemp curve cfg) ≤ 0
    · rw [if_pos hbase]; rfl
    · rw [if_neg hbase]
      obtain ⟨b, hb⟩ := Option.isSome_iff_exists.mp (hsamp (avgTemp - lastAvgTemp))
      rw [hb]
      rfl
  · intro tempDelta rateBiases hselr hlen
    unfold sampleRateBias
    rw [hselr]
    dsimp only
    rw [if_pos (by unfold rateBucketCount rateBucketMin rateBucketMax; omega)]

/-- C5 witness: the amended safety theorem applied to the default
configuration (both rate tables of length 7). -/
theorem C5_rate_bias_safety_witness :
    (CalculateTargetRPM 50 50 sampleCurve sampleCfg).isSome = true :=
  (C5_rate_bias_safety 50 50 sampleCurve sampleCfg
    (Or.inr (Or.inr ⟨by decide, by decide⟩))).1

/-- C6: `ApplyRampLimit(target, last, up, down)` returns `min(last+up, target)`
when `target > last`, `max(last-down, target)` when `target < last`, and
`target` when they are equal; with `last = 1500`, `up = 220` and a repeated
calculator target of 2400 (any down limit), two successive applications yield
1720 and then 1940. -/
theorem C6_apply_ramp_limit (target last up down : Int) :
    (target > last → ApplyRampLimit target last up down = min (last + up) target) ∧
    (target < last → ApplyRampLimit target last up down = max (last - down) target) ∧
    (target = last → ApplyRampLimit target last up down = target) ∧
    (ApplyRampLimit 2400 1500 220 down = 1720 ∧
      ApplyRampLimit 2400 1720 220 down = 1940) := by
  unfold ApplyRampLimit
  refine ⟨fun h => by rw [if_pos h], fun h => ?_, fun h => ?_, ?_, ?_⟩
  · rw [if_neg (by omega), if_pos h]
  · rw [if_neg (by omega), if_neg (by omega)]
  · rw [if_pos (by omega)]; omega
  · rw [if_pos (by omega)]; omega

/-- C6 witness: the ramp-limit characterization applied at the concrete
scenario values. -/
theorem C6_apply_ramp_limit_witness :
    ApplyRampLimit 2400 1500 220 160 = min (1500 + 220) 2400 :=
  (C6_apply_ramp_limit 2400 1500 220 160).1 (by decide)

/-- C7: `clampOffsetForPoint` clamps its offset into
`[max(edgeMin - baseRPM, -maxLearnOffset), min(edgeMax - baseRPM, maxLearnOffset)]`
and returns 0 whenever that interval is empty. -/
theorem C7_clamp_offset_for_point (offset baseRPM edgeMin edgeMax M : Int) :
    (max (edgeMin - baseRPM) (-M) ≤ min (edgeMax - baseRPM) M →
      clampOffsetForPoint offset baseRPM edgeMin edgeMax M =
        clampInt offset (max (edgeMin - baseRPM) (-M)) (min (edgeMax - baseRPM) M) ∧
      max (edgeMin - baseRPM) (-M) ≤ clampOffsetForPoint offset baseRPM edgeMin edgeMax M ∧
      clampOffsetForPoint offset baseRPM edgeMin edgeMax M ≤ min (edgeMax - baseRPM) M) ∧
    (max (edgeMin - baseRPM) (-M) > min (edgeMax - baseRPM) M →
      clampOffsetForPoint offset baseRPM edgeMin edgeMax M = 0) := by
  constructor
  · intro h
    unfold clampOffsetForPoint
    rw [if_neg (by omega)]
    exact ⟨rfl, clampInt_mem offset h⟩
  · intro h
    unfold clampOffsetForPoint
    rw [if_pos (by omega)]

/-- C7 witness: the characterization evaluated on a concrete non-empty range
(offset 700, base 1500, edges 1000/2000, cap 600 gives 500). -/
theorem C7_clamp_offset_for_point_witness :
    clampOffsetForPoint 700 1500 1000 2000 600 =
      clampInt 700 (max (1000 - 1500) (-600)) (min (2000 - 1500) 600) :=
  ((C7_clamp_offset_for_point 700 1500 1000 2000 600).1 (by decide)).1

end BS2PRO
